import Mathlib

/-!
Verification of the deterministic computation core of the TRIPLE BOT
structural validation engine (src/app_ui.py).

The core is three pure functions — `validate_inputs`, `structural_engine`,
`generate_signature` — plus the run pipeline that ties them together.
Python floats are modelled as exact rationals (ℚ); Python `/`, which raises
`ZeroDivisionError` when the divisor is zero, is modelled by returning
`none` from the engine in that case.
-/

namespace TripleBot

/-- Embedding of `validate_inputs` (src/app_ui.py lines 19-37): each rule is
checked independently and appends its fixed message; the list accumulates in
source order load, area, fc, phi, gamma. -/
def validate_inputs (load area fc phi gamma : ℚ) : List String :=
  (if load ≤ 0 then ["Axial Load must be > 0 kN"] else [])
  ++ (if area ≤ 0 then ["Section Area must be > 0 mm²"] else [])
  ++ (if fc ≤ 0 then ["Concrete strength must be > 0 MPa"] else [])
  ++ (if ¬ (0 < phi ∧ phi ≤ 1) then ["Strength reduction factor φ must be between 0 and 1"] else [])
  ++ (if gamma < 1 then ["Load factor γ should be ≥ 1.0"] else [])

/-- The tuple returned by `structural_engine`. -/
structure EngineResult where
  Pu : ℚ
  Pn : ℚ
  phi_Pn : ℚ
  dc_ratio : ℚ
  status : String
deriving DecidableEq, Repr

/-- Embedding of `structural_engine` (src/app_ui.py lines 40-49). The body
performs the unguarded division `Pu / phi_Pn`; in Python this raises
`ZeroDivisionError` exactly when `phi_Pn` is zero, modelled here as `none`. -/
def structural_engine (load_kN area_mm2 fc_mpa phi gamma : ℚ) : Option EngineResult :=
  let Pu := gamma * load_kN
  let Pn := 0.85 * fc_mpa * area_mm2 / 1000
  let phi_Pn := phi * Pn
  if phi_Pn = 0 then none
  else
    let dc_ratio := Pu / phi_Pn
    let status := if dc_ratio ≤ 1 then "PASS" else "FAIL"
    some ⟨Pu, Pn, phi_Pn, dc_ratio, status⟩

/-! JSON values and serialization, modelling `json.dumps(payload, sort_keys=True)`
as called by `generate_signature` (src/app_ui.py line 53). Payload values are
Python floats or strings. Python represents a float in its canonical shortest
round-trip decimal form; floats are modelled as exact rationals here, with one
fixed canonical rendering, which preserves the property the spec relies on:
equal values always serialize to the same text. -/

/-- A JSON-serializable payload value: a Python float (as ℚ) or a string. -/
inductive JVal where
  | num (q : ℚ)
  | str (s : String)
deriving DecidableEq, Repr

/-- Canonical textual form of a float value, modelling Python repr: an
integral value prints with a trailing `.0` as Python does; a fixed exact
rendering is used otherwise. One value, one text. -/
def pyRepr (q : ℚ) : String :=
  if q.den = 1 then toString q.num ++ ".0"
  else toString q.num ++ "/" ++ toString q.den

/-- JSON string escaping as json.dumps performs it for the characters that can
occur here (quote and backslash; payload strings are plain ASCII). -/
def jsonEscapeChar (c : Char) : String :=
  if c = '"' then "\\\"" else if c = '\\' then "\\\\" else String.singleton c

/-- A JSON string literal: escaped content between double quotes. -/
def jsonStr (s : String) : String :=
  "\"" ++ String.join (s.toList.map jsonEscapeChar) ++ "\""

/-- Serialization of one payload value. -/
def jvalRepr : JVal → String
  | .num q => pyRepr q
  | .str s => jsonStr s

/-- One `"key": value` entry, with the separator json.dumps uses by default. -/
def entryRepr (kv : String × JVal) : String :=
  jsonStr kv.1 ++ ": " ++ jvalRepr kv.2

/-- Emission of a JSON object from an ordered list of entries: entries joined
by the default item separator, between braces. -/
def serializePairs (pairs : List (String × JVal)) : String :=
  "\x7b" ++ String.intercalate ", " (pairs.map entryRepr) ++ "\x7d"

/-- Key order used by sort_keys=True: lexicographic comparison of the key
strings by code point, Python's string order. -/
def keyLe (a b : String × JVal) : Prop := a.1 ≤ b.1

instance : DecidableRel keyLe := fun a b => inferInstanceAs (Decidable (a.1 ≤ b.1))

instance : IsTotal (String × JVal) keyLe := ⟨fun a b => le_total a.1 b.1⟩

instance : IsTrans (String × JVal) keyLe := ⟨fun _ _ _ hab hbc => le_trans hab hbc⟩

/-- Embedding of `json.dumps(payload, sort_keys=True)`: the entries are put in
ascending key order, then emitted. -/
def json_dumps (payload : List (String × JVal)) : String :=
  serializePairs (payload.insertionSort keyLe)

/-- UTF-8 encoding of a string, modelling `str.encode()`: each code point
becomes one to four bytes. -/
def utf8EncodeChar (c : Char) : List ℕ :=
  let u := c.toNat
  if u < 128 then [u]
  else if u < 2048 then [192 + u / 64, 128 + u % 64]
  else if u < 65536 then [224 + u / 4096, 128 + u / 64 % 64, 128 + u % 64]
  else [240 + u / 262144, 128 + u / 4096 % 64, 128 + u / 64 % 64, 128 + u % 64]

/-- UTF-8 bytes of a whole string. -/
def utf8Encode (s : String) : List ℕ :=
  s.toList.flatMap utf8EncodeChar

/-! SHA-256, modelling `hashlib.sha256` (FIPS 180-4). Words are naturals kept
below 2^32 by reducing after every operation. -/

/-- Reduction of a word modulo 2^32. -/
def m32 (n : ℕ) : ℕ := n % 4294967296

/-- Word addition modulo 2^32. -/
def add32 (a b : ℕ) : ℕ := m32 (a + b)

/-- Right rotation of a 32-bit word by n bits. -/
def rotr32 (n x : ℕ) : ℕ := m32 ((x >>> n) ||| (x <<< (32 - n)))

/-- Bitwise complement of a 32-bit word. -/
def not32 (x : ℕ) : ℕ := x ^^^ 4294967295

/-- The eight-word working state and digest of SHA-256. -/
structure Hash8 where
  h0 : ℕ
  h1 : ℕ
  h2 : ℕ
  h3 : ℕ
  h4 : ℕ
  h5 : ℕ
  h6 : ℕ
  h7 : ℕ
deriving DecidableEq, Repr

/-- Initial hash value H(0) of SHA-256 (FIPS 180-4 section 5.3.3, written in
decimal). -/
def sha256Init : Hash8 :=
  ⟨1779033703, 3144134277, 1013904242, 2773480762,
   1359893119, 2600822924, 528734635, 1541459225⟩

/-- The 64 round constants K of SHA-256 (FIPS 180-4 section 4.2.2, written in
decimal). -/
def sha256K : List ℕ :=
  [1116352408, 1899447441, 3049323471, 3921009573, 961987163,
   1508970993, 2453635748, 2870763221, 3624381080, 310598401,
   607225278, 1426881987, 1925078388, 2162078206, 2614888103,
   3248222580, 3835390401, 4022224774, 264347078, 604807628,
   770255983, 1249150122, 1555081692, 1996064986, 2554220882,
   2821834349, 2952996808, 3210313671, 3336571891, 3584528711,
   113926993, 338241895, 666307205, 773529912, 1294757372,
   1396182291, 1695183700, 1986661051, 2177026350, 2456956037,
   2730485921, 2820302411, 3259730800, 3345764771, 3516065817,
   3600352804, 4094571909, 275423344, 430227734, 506948616,
   659060556, 883997877, 958139571, 1322822218, 1537002063,
   1747873779, 1955562222, 2024104815, 2227730452, 2361852424,
   2428436474, 2756734187, 3204031479, 3329325298]

/-- Big-endian eight-byte encoding of the message bit length. -/
def be64 (n : ℕ) : List ℕ :=
  [n >>> 56 % 256, n >>> 48 % 256, n >>> 40 % 256, n >>> 32 % 256,
   n >>> 24 % 256, n >>> 16 % 256, n >>> 8 % 256, n % 256]

/-- SHA-256 padding: a 0x80 byte, zero bytes up to 56 mod 64, then the bit
length in eight big-endian bytes. -/
def padMsg (msg : List ℕ) : List ℕ :=
  msg ++ [128] ++ List.replicate ((119 - msg.length % 64) % 64) 0 ++ be64 (8 * msg.length)

/-- Split of the padded message into 64-byte blocks. -/
def chunks64 : List ℕ → List (List ℕ)
  | [] => []
  | b :: bs => (b :: bs).take 64 :: chunks64 ((b :: bs).drop 64)
termination_by l => l.length
decreasing_by simp [List.length_drop]; omega

/-- The big-endian 32-bit word starting at byte 4*i of a block. -/
def wordOfBytes (block : List ℕ) (i : ℕ) : ℕ :=
  block.getD (4 * i) 0 <<< 24 ||| block.getD (4 * i + 1) 0 <<< 16 |||
  block.getD (4 * i + 2) 0 <<< 8 ||| block.getD (4 * i + 3) 0

/-- Lowercase sigma0 of the message schedule. -/
def ssig0 (x : ℕ) : ℕ := rotr32 7 x ^^^ rotr32 18 x ^^^ (x >>> 3)

/-- Lowercase sigma1 of the message schedule. -/
def ssig1 (x : ℕ) : ℕ := rotr32 17 x ^^^ rotr32 19 x ^^^ (x >>> 10)

/-- One extension step of the message schedule: appends word t computed from
words t-16, t-15, t-7 and t-2. -/
def extendW (w : List ℕ) : List ℕ :=
  w ++ [add32 (add32 (w.getD (w.length - 16) 0) (ssig0 (w.getD (w.length - 15) 0)))
              (add32 (w.getD (w.length - 7) 0) (ssig1 (w.getD (w.length - 2) 0)))]

/-- The 64-word message schedule of a block: the 16 block words extended 48
times. -/
def schedule (block : List ℕ) : List ℕ :=
  (List.range 48).foldl (fun w _ => extendW w) ((List.range 16).map (wordOfBytes block))

/-- One compression round with round constant k and schedule word w. -/
def roundStep (kw : ℕ × ℕ) (s : Hash8) : Hash8 :=
  let bigS1 := rotr32 6 s.h4 ^^^ rotr32 11 s.h4 ^^^ rotr32 25 s.h4
  let ch := (s.h4 &&& s.h5) ^^^ (not32 s.h4 &&& s.h6)
  let temp1 := add32 (add32 (add32 s.h7 bigS1) (add32 ch kw.1)) kw.2
  let bigS0 := rotr32 2 s.h0 ^^^ rotr32 13 s.h0 ^^^ rotr32 22 s.h0
  let maj := (s.h0 &&& s.h1) ^^^ (s.h0 &&& s.h2) ^^^ (s.h1 &&& s.h2)
  let temp2 := add32 bigS0 maj
  ⟨add32 temp1 temp2, s.h0, s.h1, s.h2, add32 s.h3 temp1, s.h4, s.h5, s.h6⟩

/-- Compression of one 64-byte block into the running hash value. -/
def compress (st : Hash8) (block : List ℕ) : Hash8 :=
  let t := (sha256K.zip (schedule block)).foldl (fun s kw => roundStep kw s) st
  ⟨add32 st.h0 t.h0, add32 st.h1 t.h1, add32 st.h2 t.h2, add32 st.h3 t.h3,
   add32 st.h4 t.h4, add32 st.h5 t.h5, add32 st.h6 t.h6, add32 st.h7 t.h7⟩

/-- The SHA-256 digest state of a byte message: every padded block compressed
in order from the initial state. -/
def sha256Digest (msg : List ℕ) : Hash8 :=
  (chunks64 (padMsg msg)).foldl compress sha256Init

/-- The lowercase hexadecimal digit of n mod 16: code point 48 up for the
decimal digits, 87 + the value (97 up) for the letters a to f. -/
def hexDigit (n : ℕ) : Char :=
  if n % 16 < 10 then Char.ofNat (48 + n % 16) else Char.ofNat (87 + n % 16)

/-- The eight hexadecimal digits of a 32-bit word, most significant first. -/
def hexOfWord (w : ℕ) : List Char :=
  [hexDigit (w >>> 28), hexDigit (w >>> 24), hexDigit (w >>> 20), hexDigit (w >>> 16),
   hexDigit (w >>> 12), hexDigit (w >>> 8), hexDigit (w >>> 4), hexDigit w]

/-- The 64 hexadecimal characters of a digest state, modelling `hexdigest()`. -/
def hexDigestChars (st : Hash8) : List Char :=
  hexOfWord st.h0 ++ hexOfWord st.h1 ++ hexOfWord st.h2 ++ hexOfWord st.h3 ++
  hexOfWord st.h4 ++ hexOfWord st.h5 ++ hexOfWord st.h6 ++ hexOfWord st.h7

/-- The hexdigest characters of the SHA-256 of a byte message. -/
def sha256HexChars (msg : List ℕ) : List Char :=
  hexDigestChars (sha256Digest msg)

/-- Embedding of `generate_signature` (src/app_ui.py lines 52-54):
`hashlib.sha256(json.dumps(payload, sort_keys=True).encode()).hexdigest()[:20]`. -/
def generate_signature (payload : List (String × JVal)) : String :=
  let raw := json_dumps payload
  String.mk ((sha256HexChars (utf8Encode raw)).take 20)

/-- Embedding of the result_payload mapping (src/app_ui.py lines 121-132), in
source insertion order. -/
def result_payload (load gamma area fc phi Pu Pn phi_Pn dc_ratio : ℚ)
    (status : String) : List (String × JVal) :=
  [("Load", .num load), ("Gamma", .num gamma), ("Area", .num area), ("fc", .num fc),
   ("Phi", .num phi), ("Pu", .num Pu), ("Pn", .num Pn), ("phiPn", .num phi_Pn),
   ("DCR", .num dc_ratio), ("Status", .str status)]

/-- Round half to even on ℚ, the rounding rule of Python round on ties. -/
def roundHalfEven (x : ℚ) : ℤ :=
  let f := ⌊x⌋
  let r := x - f
  if r < 1/2 then f else if 1/2 < r then f + 1 else if f % 2 = 0 then f else f + 1

/-- Embedding of Python `round(x, n)`: round to n decimal places. -/
def pyRound (x : ℚ) (n : ℕ) : ℚ := (roundHalfEven (x * 10 ^ n) : ℚ) / 10 ^ n

/-- What one run of the execution block produces (src/app_ui.py lines
108-172): the validation errors shown, the numeric report lines shown, and the
signature shown (none when validation failed, so that the engine and the
signature are never reached). -/
structure RunOutput where
  errors : List String
  report : List String
  signature : Option String
deriving DecidableEq, Repr

/-- Embedding of the execution block (src/app_ui.py lines 108-172): validate;
on failure surface every message and stop; otherwise run the engine, build the
payload, compute the signature, and render the report lines, which round the
displayed numbers to 3 (loads and capacities) or 4 (ratio) decimal places. The
engine's ZeroDivisionError (impossible after validation) propagates as an
output with no report and no signature. -/
def run_validation (load gamma area fc phi : ℚ) : RunOutput :=
  let errors := validate_inputs load area fc phi gamma
  if errors = [] then
    match structural_engine load area fc phi gamma with
    | none => ⟨[], [], none⟩
    | some r =>
      let payload := result_payload load gamma area fc phi r.Pu r.Pn r.phi_Pn r.dc_ratio r.status
      let sig := generate_signature payload
      let report :=
        ["Factored Load Pu: " ++ pyRepr (pyRound r.Pu 3) ++ " kN",
         "Nominal Capacity Pn: " ++ pyRepr (pyRound r.Pn 3) ++ " kN",
         "Design Capacity φPn: " ++ pyRepr (pyRound r.phi_Pn 3) ++ " kN",
         "Demand/Capacity Ratio (Pu/φPn): " ++ pyRepr (pyRound r.dc_ratio 4)]
      ⟨[], report, some sig⟩
  else ⟨errors, [], none⟩

/-! Helper lemmas shared by the claim theorems. -/

/-- Full characterization of the validator: each message is present exactly
when its rule is violated, and the list is empty exactly when every rule
holds. -/
theorem validate_inputs_spec (l a f p g : ℚ) :
    ("Axial Load must be > 0 kN" ∈ validate_inputs l a f p g ↔ l ≤ 0)
    ∧ ("Section Area must be > 0 mm²" ∈ validate_inputs l a f p g ↔ a ≤ 0)
    ∧ ("Concrete strength must be > 0 MPa" ∈ validate_inputs l a f p g ↔ f ≤ 0)
    ∧ ("Strength reduction factor φ must be between 0 and 1" ∈ validate_inputs l a f p g
        ↔ ¬ (0 < p ∧ p ≤ 1))
    ∧ ("Load factor γ should be ≥ 1.0" ∈ validate_inputs l a f p g ↔ g < 1)
    ∧ (validate_inputs l a f p g = []
        ↔ (0 < l ∧ 0 < a ∧ 0 < f ∧ (0 < p ∧ p ≤ 1) ∧ 1 ≤ g)) := by
  unfold validate_inputs
  by_cases h1 : l ≤ 0 <;> by_cases h2 : a ≤ 0 <;> by_cases h3 : f ≤ 0 <;>
    by_cases h4 : 0 < p ∧ p ≤ 1 <;> by_cases h5 : g < 1 <;>
    simp_all [not_le, not_lt, le_of_lt]

/-- The validator output is a sublist of the five messages in rule order. -/
theorem validate_inputs_sublist (l a f p g : ℚ) :
    (validate_inputs l a f p g).Sublist
      ["Axial Load must be > 0 kN", "Section Area must be > 0 mm²",
       "Concrete strength must be > 0 MPa",
       "Strength reduction factor φ must be between 0 and 1",
       "Load factor γ should be ≥ 1.0"] := by
  unfold validate_inputs
  show List.Sublist _ ((((["Axial Load must be > 0 kN"] ++ ["Section Area must be > 0 mm²"]) ++
    ["Concrete strength must be > 0 MPa"]) ++
    ["Strength reduction factor φ must be between 0 and 1"]) ++
    ["Load factor γ should be ≥ 1.0"])
  refine List.Sublist.append (List.Sublist.append (List.Sublist.append
    (List.Sublist.append ?_ ?_) ?_) ?_) ?_ <;> split <;> simp

/-- The five error messages are pairwise distinct. -/
theorem messages_nodup :
    List.Nodup
      ["Axial Load must be > 0 kN", "Section Area must be > 0 mm²",
       "Concrete strength must be > 0 MPa",
       "Strength reduction factor φ must be between 0 and 1",
       "Load factor γ should be ≥ 1.0"] := by decide

/-- A lowercase hexadecimal character: a decimal digit or a letter from a to
f. -/
def IsLowerHex (c : Char) : Prop := ('0' ≤ c ∧ c ≤ '9') ∨ ('a' ≤ c ∧ c ≤ 'f')

/-- Any hexadecimal digit emitted by hexDigit is a lowercase hex character. -/
theorem hexDigit_mem (n : ℕ) : IsLowerHex (hexDigit n) := by
  have h : n % 16 = 0 ∨ n % 16 = 1 ∨ n % 16 = 2 ∨ n % 16 = 3 ∨ n % 16 = 4 ∨ n % 16 = 5
      ∨ n % 16 = 6 ∨ n % 16 = 7 ∨ n % 16 = 8 ∨ n % 16 = 9 ∨ n % 16 = 10 ∨ n % 16 = 11
      ∨ n % 16 = 12 ∨ n % 16 = 13 ∨ n % 16 = 14 ∨ n % 16 = 15 := by omega
  rcases h with h|h|h|h|h|h|h|h|h|h|h|h|h|h|h|h <;>
    (simp only [hexDigit, IsLowerHex, h]; decide)

/-- Every character of a word's hex rendering is a lowercase hex character. -/
theorem hexOfWord_mem {c : Char} {w : ℕ} (h : c ∈ hexOfWord w) : IsLowerHex c := by
  simp only [hexOfWord, List.mem_cons, List.not_mem_nil, or_false] at h
  rcases h with h|h|h|h|h|h|h|h <;> (subst h; exact hexDigit_mem _)

/-- Every character of a SHA-256 hexdigest is a lowercase hex character. -/
theorem sha256HexChars_mem {c : Char} {msg : List ℕ} (h : c ∈ sha256HexChars msg) :
    IsLowerHex c := by
  simp only [sha256HexChars, hexDigestChars, List.mem_append] at h
  rcases h with ((((((h|h)|h)|h)|h)|h)|h)|h <;> exact hexOfWord_mem h

/-- A SHA-256 hexdigest has 64 characters, whatever the message. -/
theorem sha256HexChars_length (msg : List ℕ) : (sha256HexChars msg).length = 64 := by
  simp [sha256HexChars, hexDigestChars, hexOfWord]

/-! Claim theorems. -/

/-- Claim C1: whenever the division is defined (its divisor phi * Pn is not
zero, the one case where the engine fails instead of returning), evaluate
returns Pu = gamma * load, Pn = 0.85 * fc * area / 1000, phiPn = phi * Pn,
dcRatio = Pu / phiPn, and status PASS exactly when dcRatio ≤ 1; in
particular dcRatio exactly equal to 1 yields PASS. -/
theorem claim_C1_engine_formulas (l a f p g : ℚ)
    (h : p * (0.85 * f * a / 1000) ≠ 0) :
    structural_engine l a f p g
      = some ⟨g * l, 0.85 * f * a / 1000, p * (0.85 * f * a / 1000),
              g * l / (p * (0.85 * f * a / 1000)),
              if g * l / (p * (0.85 * f * a / 1000)) ≤ 1 then "PASS" else "FAIL"⟩
    ∧ (g * l / (p * (0.85 * f * a / 1000)) = 1 →
        (structural_engine l a f p g).map EngineResult.status = some "PASS") := by
  constructor
  · simp only [structural_engine]
    rw [if_neg h]
  · intro h1
    simp only [structural_engine]
    rw [if_neg h]
    simp [h1]

/-- Witness for C1 at the default inputs. -/
theorem claim_C1_engine_formulas_witness :
    structural_engine 1000 300000 28 0.65 1.4
      = some ⟨1.4 * 1000, 0.85 * 28 * 300000 / 1000, 0.65 * (0.85 * 28 * 300000 / 1000),
              1.4 * 1000 / (0.65 * (0.85 * 28 * 300000 / 1000)),
              if (1.4 : ℚ) * 1000 / (0.65 * (0.85 * 28 * 300000 / 1000)) ≤ 1
              then "PASS" else "FAIL"⟩
    ∧ ((1.4 : ℚ) * 1000 / (0.65 * (0.85 * 28 * 300000 / 1000)) = 1 →
        (structural_engine 1000 300000 28 0.65 1.4).map EngineResult.status = some "PASS") :=
  claim_C1_engine_formulas 1000 300000 28 0.65 1.4 (by norm_num)

/-- Claim C2: validate returns exactly the fixed error message of each violated
rule, every violated rule at once with no short-circuiting, and returns the
empty list exactly when load>0, area>0, fc>0, 0<phi≤1 and gamma≥1 all hold. -/
theorem claim_C2_validator_messages (l a f p g : ℚ) :
    ("Axial Load must be > 0 kN" ∈ validate_inputs l a f p g ↔ l ≤ 0)
    ∧ ("Section Area must be > 0 mm²" ∈ validate_inputs l a f p g ↔ a ≤ 0)
    ∧ ("Concrete strength must be > 0 MPa" ∈ validate_inputs l a f p g ↔ f ≤ 0)
    ∧ ("Strength reduction factor φ must be between 0 and 1" ∈ validate_inputs l a f p g
        ↔ ¬ (0 < p ∧ p ≤ 1))
    ∧ ("Load factor γ should be ≥ 1.0" ∈ validate_inputs l a f p g ↔ g < 1)
    ∧ (validate_inputs l a f p g = []
        ↔ (0 < l ∧ 0 < a ∧ 0 < f ∧ (0 < p ∧ p ≤ 1) ∧ 1 ≤ g)) :=
  validate_inputs_spec l a f p g

/-- Claim C3: the signature is the first 20 characters of the lowercase
hexadecimal SHA-256 digest of the UTF-8 bytes of the canonical serialization
of the payload, whose entries are a permutation of the payload in ascending
key order; the hashed result payload holds exactly the ten keys Load, Gamma,
Area, fc, Phi, Pu, Pn, phiPn, DCR, Status with the corresponding values. -/
theorem claim_C3_signature_canonical (payload : List (String × JVal))
    (load gamma area fc phi Pu Pn phi_Pn dc_ratio : ℚ) (status : String) :
    generate_signature payload
      = String.mk ((sha256HexChars (utf8Encode (json_dumps payload))).take 20)
    ∧ (∃ q, payload.Perm q ∧ List.Sorted keyLe q ∧ json_dumps payload = serializePairs q)
    ∧ (generate_signature payload).length = 20
    ∧ (∀ c ∈ (generate_signature payload).toList, IsLowerHex c)
    ∧ (result_payload load gamma area fc phi Pu Pn phi_Pn dc_ratio status).map Prod.fst
        = ["Load", "Gamma", "Area", "fc", "Phi", "Pu", "Pn", "phiPn", "DCR", "Status"]
    ∧ (result_payload load gamma area fc phi Pu Pn phi_Pn dc_ratio status).lookup "Load"
        = some (.num load)
    ∧ (result_payload load gamma area fc phi Pu Pn phi_Pn dc_ratio status).lookup "Gamma"
        = some (.num gamma)
    ∧ (result_payload load gamma area fc phi Pu Pn phi_Pn dc_ratio status).lookup "Area"
        = some (.num area)
    ∧ (result_payload load gamma area fc phi Pu Pn phi_Pn dc_ratio status).lookup "fc"
        = some (.num fc)
    ∧ (result_payload load gamma area fc phi Pu Pn phi_Pn dc_ratio status).lookup "Phi"
        = some (.num phi)
    ∧ (result_payload load gamma area fc phi Pu Pn phi_Pn dc_ratio status).lookup "Pu"
        = some (.num Pu)
    ∧ (result_payload load gamma area fc phi Pu Pn phi_Pn dc_ratio status).lookup "Pn"
        = some (.num Pn)
    ∧ (result_payload load gamma area fc phi Pu Pn phi_Pn dc_ratio status).lookup "phiPn"
        = some (.num phi_Pn)
    ∧ (result_payload load gamma area fc phi Pu Pn phi_Pn dc_ratio status).lookup "DCR"
        = some (.num dc_ratio)
    ∧ (result_payload load gamma area fc phi Pu Pn phi_Pn dc_ratio status).lookup "Status"
        = some (.str status) := by
  refine ⟨rfl, ?_, ?_, ?_, rfl, rfl, rfl, rfl, rfl, rfl, rfl, rfl, rfl, rfl, rfl⟩
  · exact ⟨payload.insertionSort keyLe, (List.perm_insertionSort keyLe payload).symm,
      List.sorted_insertionSort keyLe payload, rfl⟩
  · simp [generate_signature, List.length_take, sha256HexChars_length]
  · intro c hc
    simp only [generate_signature, String.toList] at hc
    exact sha256HexChars_mem (List.mem_of_mem_take hc)

/-- Claim C4: evaluate and signature are deterministic: identical inputs give
identical outputs, identical payloads give identical signature strings. In the
source neither function reads any state besides its arguments, so both are
pure functions of them. -/
theorem claim_C4_determinism (l a f p g l2 a2 f2 p2 g2 : ℚ)
    (pl pl2 : List (String × JVal))
    (hin : (l, a, f, p, g) = (l2, a2, f2, p2, g2)) (hpl : pl = pl2) :
    structural_engine l a f p g = structural_engine l2 a2 f2 p2 g2
    ∧ generate_signature pl = generate_signature pl2 := by
  simp only [Prod.mk.injEq] at hin
  obtain ⟨rfl, rfl, rfl, rfl, rfl⟩ := hin
  subst hpl
  exact ⟨rfl, rfl⟩

/-- Witness for C4 at the default inputs and a concrete payload. -/
theorem claim_C4_determinism_witness :
    structural_engine 1000 300000 28 0.65 1.4 = structural_engine 1000 300000 28 0.65 1.4
    ∧ generate_signature [("Status", .str "PASS")]
        = generate_signature [("Status", .str "PASS")] :=
  claim_C4_determinism 1000 300000 28 0.65 1.4 1000 300000 28 0.65 1.4
    [("Status", .str "PASS")] [("Status", .str "PASS")] rfl rfl

/-- Claim C5: under the validated-input precondition, phiPn is strictly
positive, so the engine returns a result whose ratio is the well-defined
quotient Pu / phiPn, and the pipeline always produces a signature. -/
theorem claim_C5_division_safe (l a f p g : ℚ)
    (hl : 0 < l) (ha : 0 < a) (hf : 0 < f) (hp : 0 < p) (hp1 : p ≤ 1) (hg : 1 ≤ g) :
    0 < p * (0.85 * f * a / 1000)
    ∧ (∃ r, structural_engine l a f p g = some r
        ∧ r.dc_ratio = g * l / (p * (0.85 * f * a / 1000)))
    ∧ (run_validation l g a f p).signature.isSome = true := by
  have hpos : 0 < p * (0.85 * f * a / 1000) := by positivity
  have hne : p * (0.85 * f * a / 1000) ≠ 0 := ne_of_gt hpos
  have hv : validate_inputs l a f p g = [] :=
    (validate_inputs_spec l a f p g).2.2.2.2.2.mpr ⟨hl, ha, hf, ⟨hp, hp1⟩, hg⟩
  have heng : structural_engine l a f p g
      = some ⟨g * l, 0.85 * f * a / 1000, p * (0.85 * f * a / 1000),
              g * l / (p * (0.85 * f * a / 1000)),
              if g * l / (p * (0.85 * f * a / 1000)) ≤ 1 then "PASS" else "FAIL"⟩ := by
    simp only [structural_engine]
    rw [if_neg hne]
  refine ⟨hpos, ⟨_, heng, rfl⟩, ?_⟩
  simp only [run_validation, hv, heng]
  simp

/-- Witness for C5 at the default inputs. -/
theorem claim_C5_division_safe_witness :
    (0 : ℚ) < 0.65 * (0.85 * 28 * 300000 / 1000)
    ∧ (∃ r, structural_engine 1000 300000 28 0.65 1.4 = some r
        ∧ r.dc_ratio = 1.4 * 1000 / (0.65 * (0.85 * 28 * 300000 / 1000)))
    ∧ (run_validation 1000 1.4 300000 28 0.65).signature.isSome = true :=
  claim_C5_division_safe 1000 300000 28 0.65 1.4 (by norm_num) (by norm_num)
    (by norm_num) (by norm_num) (by norm_num) (by norm_num)

/-- Claim C6: the validator rejects phi = 0 and every phi > 1 with the phi
message, while phi = 1 exactly is accepted with no phi message: the phi bound
is open at 0 and inclusive at 1. -/
theorem claim_C6_phi_bounds (l a f g p : ℚ) :
    ((p = 0 ∨ 1 < p) →
      "Strength reduction factor φ must be between 0 and 1" ∈ validate_inputs l a f p g)
    ∧ "Strength reduction factor φ must be between 0 and 1" ∉ validate_inputs l a f 1 g := by
  constructor
  · intro hp
    refine (validate_inputs_spec l a f p g).2.2.2.1.mpr ?_
    rintro ⟨hp0, hp1⟩
    rcases hp with rfl | hgt
    · exact lt_irrefl 0 hp0
    · exact absurd hgt (not_lt.mpr hp1)
  · intro hmem
    exact (validate_inputs_spec l a f 1 g).2.2.2.1.mp hmem ⟨by norm_num, le_refl 1⟩

/-- Claim C7: the run pipeline hashes the payload built from the exact,
unrounded engine values — the payload fields are the engine outputs
themselves — while the displayed report lines round to 3 or 4 decimal places;
rounding never touches the hashed payload. -/
theorem claim_C7_signature_unrounded (load gamma area fc phi : ℚ) (r : EngineResult)
    (h : structural_engine load area fc phi gamma = some r)
    (hv : validate_inputs load area fc phi gamma = []) :
    (run_validation load gamma area fc phi).signature
      = some (generate_signature (result_payload load gamma area fc phi
          r.Pu r.Pn r.phi_Pn r.dc_ratio r.status))
    ∧ (result_payload load gamma area fc phi r.Pu r.Pn r.phi_Pn r.dc_ratio r.status).lookup "Pu"
        = some (.num r.Pu)
    ∧ (result_payload load gamma area fc phi r.Pu r.Pn r.phi_Pn r.dc_ratio r.status).lookup "Pn"
        = some (.num r.Pn)
    ∧ (result_payload load gamma area fc phi r.Pu r.Pn r.phi_Pn r.dc_ratio r.status).lookup "phiPn"
        = some (.num r.phi_Pn)
    ∧ (result_payload load gamma area fc phi r.Pu r.Pn r.phi_Pn r.dc_ratio r.status).lookup "DCR"
        = some (.num r.dc_ratio)
    ∧ (run_validation load gamma area fc phi).report
      = ["Factored Load Pu: " ++ pyRepr (pyRound r.Pu 3) ++ " kN",
         "Nominal Capacity Pn: " ++ pyRepr (pyRound r.Pn 3) ++ " kN",
         "Design Capacity φPn: " ++ pyRepr (pyRound r.phi_Pn 3) ++ " kN",
         "Demand/Capacity Ratio (Pu/φPn): " ++ pyRepr (pyRound r.dc_ratio 4)] := by
  simp only [run_validation, hv, h]
  exact ⟨rfl, rfl, rfl, rfl, rfl, rfl⟩

/-- Witness for C7 at the default inputs, whose ratio 1400/4641 is not a
fixed point of the 4-decimal display rounding. -/
theorem claim_C7_signature_unrounded_witness :
    (run_validation 1000 1.4 300000 28 0.65).signature
      = some (generate_signature (result_payload 1000 1.4 300000 28 0.65
          1400 7140 4641 (1400 / 4641) "PASS"))
    ∧ (result_payload 1000 1.4 300000 28 0.65 1400 7140 4641 (1400 / 4641) "PASS").lookup "Pu"
        = some (.num 1400)
    ∧ (result_payload 1000 1.4 300000 28 0.65 1400 7140 4641 (1400 / 4641) "PASS").lookup "Pn"
        = some (.num 7140)
    ∧ (result_payload 1000 1.4 300000 28 0.65 1400 7140 4641 (1400 / 4641) "PASS").lookup "phiPn"
        = some (.num 4641)
    ∧ (result_payload 1000 1.4 300000 28 0.65 1400 7140 4641 (1400 / 4641) "PASS").lookup "DCR"
        = some (.num (1400 / 4641))
    ∧ (run_validation 1000 1.4 300000 28 0.65).report
      = ["Factored Load Pu: " ++ pyRepr (pyRound 1400 3) ++ " kN",
         "Nominal Capacity Pn: " ++ pyRepr (pyRound 7140 3) ++ " kN",
         "Design Capacity φPn: " ++ pyRepr (pyRound 4641 3) ++ " kN",
         "Demand/Capacity Ratio (Pu/φPn): " ++ pyRepr (pyRound (1400 / 4641) 4)] :=
  claim_C7_signature_unrounded 1000 1.4 300000 28 0.65
    ⟨1400, 7140, 4641, 1400 / 4641, "PASS"⟩
    (by norm_num [structural_engine]) (by norm_num [validate_inputs])

/-- Claim C8: at the default inputs load=1000, gamma=1.4, area=300000, fc=28,
phi=0.65 the engine returns Pu = 1400, Pn = 7140, phiPn = 4641,
dcRatio = 1400/4641 ≈ 0.30166 and status PASS. -/
theorem claim_C8_default_scenario :
    structural_engine 1000 300000 28 0.65 1.4
      = some ⟨1400, 7140, 4641, 1400 / 4641, "PASS"⟩
    ∧ |1400 / 4641 - (0.30166 : ℚ)| < 1 / 100000 := by
  constructor
  · norm_num [structural_engine]
  · norm_num [abs]

/-- Claim C9: outside the precondition, when phi * Pn is zero the unguarded
division fails (ZeroDivisionError, modelled as none): no defensive check, no
error value. -/
theorem claim_C9_zero_division (l a f p g : ℚ)
    (h : p * (0.85 * f * a / 1000) = 0) :
    structural_engine l a f p g = none := by
  simp only [structural_engine]
  rw [if_pos h]

/-- Witness for C9 at phi = 0. -/
theorem claim_C9_zero_division_witness : structural_engine 1000 300000 28 0 1.4 = none :=
  claim_C9_zero_division 1000 300000 28 0 1.4 (by norm_num)

/-- Claim C10: the validator list is a sublist of the five messages in the
fixed order load, area, fc, phi, gamma, hence holds each message at most once
and has length at most 5. -/
theorem claim_C10_message_multiplicity (l a f p g : ℚ) :
    (validate_inputs l a f p g).Sublist
      ["Axial Load must be > 0 kN", "Section Area must be > 0 mm²",
       "Concrete strength must be > 0 MPa",
       "Strength reduction factor φ must be between 0 and 1",
       "Load factor γ should be ≥ 1.0"]
    ∧ (validate_inputs l a f p g).length ≤ 5
    ∧ ∀ m : String, (validate_inputs l a f p g).count m ≤ 1 := by
  have hs := validate_inputs_sublist l a f p g
  refine ⟨hs, hs.length_le, fun m => ?_⟩
  exact List.nodup_iff_count_le_one.mp (messages_nodup.sublist hs) m

end TripleBot
